import Mathlib

/-!
Verification of the xcc freestanding `<stddef.h>` header
(`src/xcc/include/stddef.h`).

The header text is:

  #ifndef _XCC_STDDEF_H
  #define _XCC_STDDEF_H
  typedef long ptrdiff_t;
  typedef unsigned long size_t;
  typedef int wchar_t;
  #define NULL ((void *)0)
  #define offsetof(type, member) __builtin_offsetof(type, member)
  typedef long max_align_t;
  #endif

We embed the header's declarations (the typedef targets and the macro
expansions) directly, and model the surrounding compiler facts — the
target ABI's type widths, alignments and signedness, the struct-layout
algorithm behind `__builtin_offsetof`, and the preprocessor's handling
of the include guard — from the specification, since the compiler
itself is not part of the given sources.
-/

namespace XccStddef

/-- The fundamental scalar types of the C dialect the compiler handles.
`pointer` stands for any object or function pointer type (the spec's
invariant concerns only the common pointer width). -/
inductive CScalarType where
  | bool
  | char
  | schar
  | uchar
  | short
  | ushort
  | int
  | uint
  | long
  | ulong
  | llong
  | ullong
  | float
  | double
  | pointer
deriving DecidableEq

/-- Modelled from the spec: the target ABI of the code generator, which is
not among the given sources. The spec fixes `wchar_t` (= `int`) as a 4-byte
type, requires the word type `long` used for `size_t`/`ptrdiff_t` to have
the target pointer's width, and names no fundamental type wider than the
word type; the LP64 convention (1/2/4/8-byte char/short/int/long, 8-byte
long long, pointers and double) realises exactly that. Sizes in bytes. -/
def sizeofType : CScalarType → Nat
  | .bool => 1
  | .char => 1
  | .schar => 1
  | .uchar => 1
  | .short => 2
  | .ushort => 2
  | .int => 4
  | .uint => 4
  | .long => 8
  | .ulong => 8
  | .llong => 8
  | .ullong => 8
  | .float => 4
  | .double => 8
  | .pointer => 8

/-- Modelled from the spec: natural alignment — each fundamental scalar
type is aligned to its own size, as the LP64 ABI prescribes. -/
def alignofType (t : CScalarType) : Nat := sizeofType t

/-- Modelled from the spec: signedness of each fundamental scalar type
(`char` is signed on the modelled target; floating types count as signed
since they represent negative values; pointers are treated as unsigned
addresses). -/
def isSignedType : CScalarType → Bool
  | .bool => false
  | .char => true
  | .schar => true
  | .uchar => false
  | .short => true
  | .ushort => false
  | .int => true
  | .uint => false
  | .long => true
  | .ulong => false
  | .llong => true
  | .ullong => false
  | .float => true
  | .double => true
  | .pointer => false

/-- The signed/unsigned integer-type correspondence of C: each signed
integer type paired with the unsigned type of the same base width. -/
def unsignedVariantOf : CScalarType → Option CScalarType
  | .schar => some .uchar
  | .char => some .uchar
  | .short => some .ushort
  | .int => some .uint
  | .long => some .ulong
  | .llong => some .ullong
  | _ => none

/-- `typedef long ptrdiff_t;` — from the source, line 7. -/
def ptrdiff_t : CScalarType := .long

/-- `typedef unsigned long size_t;` — from the source, line 8. -/
def size_t : CScalarType := .ulong

/-- `typedef int wchar_t;` — from the source, line 9. -/
def wchar_t : CScalarType := .int

/-- `typedef long max_align_t;` — from the source, line 15. -/
def max_align_t : CScalarType := .long

/-- Width in bits of a scalar type. -/
def bitWidth (t : CScalarType) : Nat := 8 * sizeofType t

/-- Value of an integer reduced into an unsigned type of width `w` bits
(C's modular conversion to an unsigned integer type). -/
def toUnsigned (w : Nat) (x : Int) : Nat := (x % ((2 : Int) ^ w)).toNat

/-- Value denoted by the bit pattern `u` read as a `w`-bit two's-complement
signed integer. -/
def toSigned (w : Nat) (u : Nat) : Int :=
  if u % 2 ^ w < 2 ^ (w - 1) then ((u % 2 ^ w : Nat) : Int)
  else ((u % 2 ^ w : Nat) : Int) - (2 : Int) ^ w

/-- The constant expressions relevant to the `NULL` macro: integer
literals and a cast to `void *`. -/
inductive CConstExpr where
  | intLit (n : Int)
  | castVoidPtr (e : CConstExpr)
deriving DecidableEq

/-- `#define NULL ((void *)0)` — the macro's expansion, from the source,
line 11. -/
def NULL : CConstExpr := .castVoidPtr (.intLit 0)

/-- The type a constant expression carries: some integer type, or
`void *`. -/
inductive CValueType where
  | integer (t : CScalarType)
  | voidPtr
deriving DecidableEq

/-- Static type of a constant expression: an undecorated integer literal
has type `int`; a `(void *)` cast yields `void *`. -/
def typeOfConstExpr : CConstExpr → CValueType
  | .intLit _ => .integer .int
  | .castVoidPtr _ => .voidPtr

/-- Size in bytes of the type of a value. -/
def sizeofValueType : CValueType → Nat
  | .integer t => sizeofType t
  | .voidPtr => sizeofType .pointer

/-- Size in bytes of (the type of) a constant expression, as `sizeof`
reports it. -/
def sizeofConstExpr (e : CConstExpr) : Nat := sizeofValueType (typeOfConstExpr e)

/-- A null pointer constant in the sense of the C language: an integer
constant expression with value 0, or such an expression cast to
`void *`. -/
def isNullPointerConstant : CConstExpr → Bool
  | .intLit n => n == 0
  | .castVoidPtr (.intLit n) => n == 0
  | .castVoidPtr _ => false

/-- A pointer type a constant may be converted to: pointer to some object
type, or pointer to function. -/
inductive CPointerTargetKind where
  | object (t : CScalarType)
  | function
deriving DecidableEq

/-- Modelled from the spec: the host compiler's strict-mode conversion
diagnostic, part of the compiler front end absent from the sources. A
null pointer constant converts to any object or function pointer type
without a diagnostic; any other expression draws one. -/
def conversionDiagnostic (e : CConstExpr) (_t : CPointerTargetKind) : Bool :=
  !isNullPointerConstant e

/-- Numeric value of a constant expression (a cast to `void *` keeps the
address value). -/
def evalConstExpr : CConstExpr → Int
  | .intLit n => n
  | .castVoidPtr e => evalConstExpr e

/-- Pointer values are addresses; address 0 is the null pointer. -/
def nullAddr : Nat := 0

/-- The address a pointer initialized from a constant expression holds. -/
def ptrOfConst (e : CConstExpr) : Nat := (evalConstExpr e).toNat

/-- C pointer equality comparison on address values. -/
def ptrEq (a b : Nat) : Bool := a == b

/-- A struct member as the layout algorithm sees it: a name, a size and an
alignment requirement, both in bytes. -/
structure CMember where
  name : String
  msize : Nat
  malign : Nat
deriving DecidableEq

/-- Round `off` up to the next multiple of `a` (alignment padding). -/
def alignUp (off a : Nat) : Nat :=
  if a = 0 then off else (off + a - 1) / a * a

/-- Modelled from the spec: the code generator's struct-layout algorithm
(the code generator is not among the given sources): members are placed in
order, each at the current offset rounded up to the member's alignment.
`findOffset start members field` yields the byte offset of `field`. -/
def findOffset : Nat → List CMember → String → Option Nat
  | _, [], _ => none
  | off, m :: ms, f =>
    let o := alignUp off m.malign
    if m.name = f then some o else findOffset (o + m.msize) ms f

/-- The compiler intrinsic `__builtin_offsetof`, computing the offset the
code generator's layout algorithm assigns, starting from offset 0. -/
def builtinOffsetofIntrinsic (ms : List CMember) (f : String) : Option Nat :=
  findOffset 0 ms f

/-- The two ways an `offsetof` macro could be implemented, distinguished
by the spec: expansion to the compiler intrinsic, or pointer arithmetic
on a null instance. -/
inductive OffsetofImplKind where
  | builtinIntrinsic
  | nullPointerArithmetic
deriving DecidableEq

/-- `#define offsetof(type, member) __builtin_offsetof(type, member)` —
the macro expands to the compiler intrinsic; from the source, line 13. -/
def offsetofImpl : OffsetofImplKind := .builtinIntrinsic

/-- What the `offsetof` macro computes, given its implementation in the
source: the intrinsic's answer. -/
def offsetofMacro (ms : List CMember) (f : String) : Option Nat :=
  builtinOffsetofIntrinsic ms f

/-- State of a translation unit as the preprocessor and type resolver see
it: the set of defined macro names, the typedef names introduced so far,
and a count of redefinition diagnostics issued. -/
structure TUState where
  definedMacroNames : List String
  typedefs : List String
  diags : Nat
deriving DecidableEq

/-- The typedef names the header introduces, in source order. -/
def stddefTypedefs : List String := ["ptrdiff_t", "size_t", "wchar_t", "max_align_t"]

/-- The macro names the header defines besides the guard. -/
def stddefMacroNames : List String := ["NULL", "offsetof"]

/-- Processing one inclusion of the header, following the source text: if
the guard `_XCC_STDDEF_H` is already defined the whole body is skipped;
otherwise the guard and the macros are defined and the typedefs
introduced, with a redefinition diagnostic for any typedef already
present in the translation unit. -/
def includeStddef (s : TUState) : TUState :=
  if "_XCC_STDDEF_H" ∈ s.definedMacroNames then s
  else
    { definedMacroNames := "_XCC_STDDEF_H" :: stddefMacroNames ++ s.definedMacroNames
      typedefs := s.typedefs ++ stddefTypedefs
      diags := s.diags + (stddefTypedefs.filter (· ∈ s.typedefs)).length }

/-- An allocation: a base address and a size in bytes. -/
structure Allocation where
  base : Nat
  size : Nat
deriving DecidableEq

/-- Modelled from the spec: `ptrdiff_t` is "wide enough to hold the
difference between two addresses within the same allocation", so an
allocation the compiler hands out never exceeds the signed word range. -/
def validAlloc (a : Allocation) : Prop := a.size ≤ 2 ^ 63 - 1

/-- An address points into an allocation (one-past-the-end included, as C
pointer arithmetic allows). -/
def inAlloc (a : Allocation) (p : Nat) : Prop := a.base ≤ p ∧ p ≤ a.base + a.size

/-- Pointer subtraction `p - q` as the machine performs it: the integer
difference reduced to the word width and read back as a signed
`ptrdiff_t` value. -/
def ptrSub (p q : Nat) : Int :=
  toSigned (bitWidth ptrdiff_t) (toUnsigned (bitWidth ptrdiff_t) ((p : Int) - (q : Int)))

/-! ## Helper lemmas -/

/-- When the alignment is nonzero, `alignUp` yields a multiple of it. -/
theorem alignUp_dvd (off a : Nat) (h : a ≠ 0) : a ∣ alignUp off a := by
  unfold alignUp
  rw [if_neg h]
  exact dvd_mul_left a ((off + a - 1) / a)

/-- Every offset `findOffset` reports belongs to a member with the looked-up
name and respects that member's alignment. -/
theorem findOffset_spec (ms : List CMember) :
    ∀ (start : Nat) (f : String) (off : Nat), findOffset start ms f = some off →
      ∃ m ∈ ms, m.name = f ∧ (m.malign = 0 ∨ m.malign ∣ off) := by
  induction ms with
  | nil =>
    intro start f off h
    simp [findOffset] at h
  | cons m ms ih =>
    intro start f off h
    simp only [findOffset] at h
    by_cases hm : m.name = f
    · rw [if_pos hm] at h
      obtain rfl : alignUp start m.malign = off := Option.some_injective _ h
      refine ⟨m, List.mem_cons_self m ms, hm, ?_⟩
      rcases Nat.eq_zero_or_pos m.malign with hz | hpos
      · exact Or.inl hz
      · exact Or.inr (alignUp_dvd start m.malign (Nat.pos_iff_ne_zero.mp hpos))
    · rw [if_neg hm] at h
      obtain ⟨m', hmem, hname, hdvd⟩ := ih _ _ _ h
      exact ⟨m', List.mem_cons_of_mem m hmem, hname, hdvd⟩

/-- After any inclusion of the header, the guard macro is defined. -/
theorem guard_mem_after_include (s : TUState) :
    "_XCC_STDDEF_H" ∈ (includeStddef s).definedMacroNames := by
  unfold includeStddef
  split
  · assumption
  · exact List.mem_cons_self _ _

/-- Including the header in a state where the guard is already defined
changes nothing. -/
theorem includeStddef_of_guard {s : TUState}
    (h : "_XCC_STDDEF_H" ∈ s.definedMacroNames) : includeStddef s = s := by
  unfold includeStddef
  rw [if_pos h]

/-! ## Claim theorems -/

/-- C1: `ptrdiff_t` and `size_t` are the signed and unsigned long word
type, so `sizeof(size_t) == sizeof(ptrdiff_t) == sizeof(void*)` on the
target the header ships for. -/
theorem size_ptrdiff_pointer_consistent :
    ptrdiff_t = CScalarType.long ∧ size_t = CScalarType.ulong ∧
    sizeofType size_t = sizeofType ptrdiff_t ∧
    sizeofType ptrdiff_t = sizeofType CScalarType.pointer :=
  ⟨rfl, rfl, rfl, rfl⟩

/-- C2: the alignment of `max_align_t` (= `long`) is at least the
alignment of every fundamental scalar type the compiler defines. -/
theorem max_align_t_alignment_maximal (T : CScalarType) :
    alignofType T ≤ alignofType max_align_t := by
  cases T <;> decide

/-- C3 counterexample: `(size_t)-1` is itself a positive representable
size, and it does not compare greater than itself, so "greater than every
positive representable size" fails at `n = 2^64 - 1`. -/
theorem size_t_minus_one_not_gt_max :
    0 < 2 ^ 64 - 1 ∧ (2 ^ 64 - 1 : Nat) < 2 ^ bitWidth size_t ∧
    ¬ ((2 ^ 64 - 1 : Nat) < toUnsigned (bitWidth size_t) (-1)) := by
  refine ⟨by norm_num, by norm_num [bitWidth, size_t, sizeofType], ?_⟩
  have hval : toUnsigned (bitWidth size_t) (-1) = 2 ^ 64 - 1 := by decide
  rw [hval]
  exact lt_irrefl _

/-- C3 (amended): `size_t` is unsigned, and `(size_t)-1` is the maximum
representable size: it is at least every representable size, and strictly
greater than every size other than itself. -/
theorem size_t_unsigned_wrap_max (n : Nat) (hrep : n < 2 ^ bitWidth size_t) :
    isSignedType size_t = false ∧
    n ≤ toUnsigned (bitWidth size_t) (-1) ∧
    (n < 2 ^ bitWidth size_t - 1 → n < toUnsigned (bitWidth size_t) (-1)) := by
  have hval : toUnsigned (bitWidth size_t) (-1) = 2 ^ 64 - 1 := by decide
  have hrep' : n < 2 ^ 64 := hrep
  have hpow : (2 : Nat) ^ 64 = 18446744073709551616 := by norm_num
  refine ⟨rfl, ?_, ?_⟩
  · rw [hval]; omega
  · intro hlt
    have hlt' : n < 2 ^ 64 - 1 := hlt
    rw [hval]; omega

/-- C3 witness: the amended statement instantiated at `n = 5`. -/
theorem size_t_unsigned_wrap_max_witness :
    (5 : Nat) < 2 ^ bitWidth size_t ∧
    (isSignedType size_t = false ∧
      5 ≤ toUnsigned (bitWidth size_t) (-1) ∧
      ((5 : Nat) < 2 ^ bitWidth size_t - 1 → 5 < toUnsigned (bitWidth size_t) (-1))) :=
  ⟨by decide, size_t_unsigned_wrap_max 5 (by decide)⟩

/-- C4: `ptrdiff_t` is signed, and the difference `p - q` of two addresses
of the same allocation with `p < q`, held in `ptrdiff_t`, is negative. -/
theorem ptrdiff_t_signed_negative_difference (a : Allocation) (p q : Nat)
    (hv : validAlloc a) (hp : inAlloc a p) (hq : inAlloc a q) (hlt : p < q) :
    isSignedType ptrdiff_t = true ∧ ptrSub p q < 0 := by
  refine ⟨rfl, ?_⟩
  obtain ⟨hp1, hp2⟩ := hp
  obtain ⟨hq1, hq2⟩ := hq
  have hs : a.size ≤ 2 ^ 63 - 1 := hv
  have hd : q - p ≤ 9223372036854775807 := by
    have : (2 : Nat) ^ 63 = 9223372036854775808 := by norm_num
    omega
  show toSigned 64 (toUnsigned 64 ((p : Int) - (q : Int))) < 0
  unfold toSigned toUnsigned
  norm_num
  split <;> omega

/-- C4 witness: addresses 2 and 7 of an allocation of 16 bytes at base 0. -/
theorem ptrdiff_t_signed_negative_difference_witness :
    validAlloc ⟨0, 16⟩ ∧ inAlloc ⟨0, 16⟩ 2 ∧ inAlloc ⟨0, 16⟩ 7 ∧ 2 < 7 ∧
    (isSignedType ptrdiff_t = true ∧ ptrSub 2 7 < 0) :=
  ⟨by norm_num [validAlloc], by norm_num [inAlloc], by norm_num [inAlloc], by norm_num,
    ptrdiff_t_signed_negative_difference ⟨0, 16⟩ 2 7 (by norm_num [validAlloc])
      (by norm_num [inAlloc]) (by norm_num [inAlloc]) (by norm_num)⟩

/-- C5: `wchar_t` is `int`, a 4-byte signed integer type on this
target. -/
theorem wchar_t_four_byte_signed :
    wchar_t = CScalarType.int ∧ sizeofType wchar_t = 4 ∧
    isSignedType wchar_t = true :=
  ⟨rfl, rfl, rfl⟩

/-- C6: `NULL` expands to `((void *)0)`, a null pointer constant and not
the plain integer literal zero; it converts without diagnostic to any
object or function pointer type; a pointer assigned from it equals any
pointer initialized from the same constant and differs from every valid
non-null pointer. -/
theorem NULL_null_pointer_constant (t : CPointerTargetKind) (a : Nat)
    (h : a ≠ nullAddr) :
    NULL ≠ CConstExpr.intLit 0 ∧
    isNullPointerConstant NULL = true ∧
    conversionDiagnostic NULL t = false ∧
    ptrEq (ptrOfConst NULL) (ptrOfConst NULL) = true ∧
    ptrEq (ptrOfConst NULL) a = false := by
  refine ⟨by decide, rfl, rfl, rfl, ?_⟩
  show ((0 : Nat) == a) = false
  rw [beq_eq_false_iff_ne]
  exact Ne.symm h

/-- C6 witness: a function pointer target and the non-null address 1. -/
theorem NULL_null_pointer_constant_witness :
    (1 : Nat) ≠ nullAddr ∧
    (NULL ≠ CConstExpr.intLit 0 ∧
      isNullPointerConstant NULL = true ∧
      conversionDiagnostic NULL CPointerTargetKind.function = false ∧
      ptrEq (ptrOfConst NULL) (ptrOfConst NULL) = true ∧
      ptrEq (ptrOfConst NULL) 1 = false) :=
  ⟨by decide, NULL_null_pointer_constant CPointerTargetKind.function 1 (by decide)⟩

/-- C7: the `offsetof` macro expands to the compiler intrinsic (not
null-pointer arithmetic), and every offset it reports is the one the
layout algorithm assigns: it belongs to a member with the requested name
and is a multiple of that member's alignment (padding included). -/
theorem offsetof_is_layout_intrinsic (ms : List CMember) (f : String) (off : Nat)
    (h : offsetofMacro ms f = some off) :
    offsetofImpl = OffsetofImplKind.builtinIntrinsic ∧
    offsetofImpl ≠ OffsetofImplKind.nullPointerArithmetic ∧
    offsetofMacro ms f = builtinOffsetofIntrinsic ms f ∧
    ∃ m ∈ ms, m.name = f ∧ (m.malign = 0 ∨ m.malign ∣ off) :=
  ⟨rfl, by decide, rfl, findOffset_spec ms 0 f off h⟩

/-- C7 witness: in `struct { char a; int b; }` (member sizes/alignments
1/1 and 4/4), `offsetof` reports offset 4 for `b`, after 3 bytes of
padding. -/
theorem offsetof_is_layout_intrinsic_witness :
    offsetofMacro [⟨"a", 1, 1⟩, ⟨"b", 4, 4⟩] "b" = some 4 ∧
    (offsetofImpl = OffsetofImplKind.builtinIntrinsic ∧
      offsetofImpl ≠ OffsetofImplKind.nullPointerArithmetic ∧
      offsetofMacro [⟨"a", 1, 1⟩, ⟨"b", 4, 4⟩] "b" =
        builtinOffsetofIntrinsic [⟨"a", 1, 1⟩, ⟨"b", 4, 4⟩] "b" ∧
      ∃ m ∈ [(⟨"a", 1, 1⟩ : CMember), ⟨"b", 4, 4⟩], m.name = "b" ∧
        (m.malign = 0 ∨ m.malign ∣ 4)) :=
  ⟨by decide, offsetof_is_layout_intrinsic [⟨"a", 1, 1⟩, ⟨"b", 4, 4⟩] "b" 4 (by decide)⟩

/-- C8: including the header a second time changes nothing: the guard
makes inclusion idempotent, issuing no redefinition diagnostic and
leaving every definition unchanged; from a pristine translation unit, two
inclusions issue no diagnostic at all. -/
theorem include_guard_idempotent (s : TUState) :
    includeStddef (includeStddef s) = includeStddef s ∧
    (includeStddef (includeStddef s)).diags = (includeStddef s).diags ∧
    (includeStddef (includeStddef s)).typedefs = (includeStddef s).typedefs ∧
    (includeStddef (includeStddef ⟨[], [], 0⟩)).diags = 0 := by
  have h2 := includeStddef_of_guard (guard_mem_after_include s)
  refine ⟨h2, by rw [h2], by rw [h2], by decide⟩

/-- C9: `ptrdiff_t` and `size_t` are the signed/unsigned variants of the
same base type `long`, of equal width, and every nonnegative `ptrdiff_t`
value round-trips through `size_t` unchanged. -/
theorem ptrdiff_size_t_roundtrip (d : Int) (h0 : 0 ≤ d)
    (h1 : d < 2 ^ (bitWidth ptrdiff_t - 1)) :
    ptrdiff_t = CScalarType.long ∧ size_t = CScalarType.ulong ∧
    unsignedVariantOf ptrdiff_t = some size_t ∧
    bitWidth size_t = bitWidth ptrdiff_t ∧
    toSigned (bitWidth ptrdiff_t) (toUnsigned (bitWidth size_t) d) = d := by
  refine ⟨rfl, rfl, rfl, rfl, ?_⟩
  have h1' : d < (9223372036854775808 : Int) := by
    have he : (2 : Int) ^ (bitWidth ptrdiff_t - 1) = 9223372036854775808 := by
      show (2 : Int) ^ 63 = 9223372036854775808
      norm_num
    rw [he] at h1
    exact h1
  show toSigned 64 (toUnsigned 64 d) = d
  unfold toSigned toUnsigned
  norm_num
  split <;> omega

/-- C9 witness: the round-trip at `d = 42`. -/
theorem ptrdiff_size_t_roundtrip_witness :
    (0 : Int) ≤ 42 ∧ (42 : Int) < 2 ^ (bitWidth ptrdiff_t - 1) ∧
    (ptrdiff_t = CScalarType.long ∧ size_t = CScalarType.ulong ∧
      unsignedVariantOf ptrdiff_t = some size_t ∧
      bitWidth size_t = bitWidth ptrdiff_t ∧
      toSigned (bitWidth ptrdiff_t) (toUnsigned (bitWidth size_t) 42) = 42) :=
  ⟨by norm_num, by decide, ptrdiff_size_t_roundtrip 42 (by norm_num) (by decide)⟩

/-- C10: `NULL` has pointer type `void *`, so `sizeof(NULL)` equals
`sizeof(void*)` and differs from the width of the plain integer literal
zero. -/
theorem NULL_has_pointer_width :
    typeOfConstExpr NULL = CValueType.voidPtr ∧
    sizeofConstExpr NULL = sizeofType CScalarType.pointer ∧
    sizeofConstExpr NULL ≠ sizeofConstExpr (CConstExpr.intLit 0) := by
  refine ⟨rfl, rfl, by decide⟩

end XccStddef
